import Mathlib

/-!
# ReactURL: Shopify content editor front end

A shallow embedding of the two React components that carry the
connect → list → select → enhance → apply workflow:

* `src/src/Dashboard.jsx` (connection state, page catalog, view controller),
* `src/src/ShopifyContentManager.jsx` (content editor),
* the guard and normalisation of `src/src/ShopifyConnect.jsx` (legacy connect form).

Modelling conventions.

* A component's `useState` cells are the fields of a structure; a handler is a
  function from the values its closure captured (the current state, the props) and
  the outcome of the network calls it awaits to the list of effects it performs, in
  source order: state-setter calls, storage writes, HTTP requests, navigations.
  The state after the handler is the fold of the setter calls over the state.
* The outcome of an awaited `axios` call is an `Option`: `none` is a rejected promise.
* JavaScript strings are Lean `String`s; `!s` on a string is `s = ""`.
* Reachable dashboard states are followed in a `Session`, where a handler is cut at
  its `await`s and other events may land between the pieces.
-/

namespace ReactURL

/-! ## JavaScript string primitives -/

/-- The characters removed by `String.prototype.trim`: ECMAScript `WhiteSpace`
and `LineTerminator` code points. -/
def isJSWhiteSpace (c : Char) : Bool :=
  let n := c.toNat
  n == 0x09 || n == 0x0A || n == 0x0B || n == 0x0C || n == 0x0D || n == 0x20 ||
  n == 0xA0 || n == 0x1680 || (0x2000 ≤ n && n ≤ 0x200A) || n == 0x2028 ||
  n == 0x2029 || n == 0x202F || n == 0x205F || n == 0x3000 || n == 0xFEFF

/-- Drop the leading white space of a character list. -/
def trimStartChars (cs : List Char) : List Char :=
  cs.dropWhile isJSWhiteSpace

/-- Drop the trailing white space of a character list. -/
def trimEndChars (cs : List Char) : List Char :=
  (cs.reverse.dropWhile isJSWhiteSpace).reverse

/-- The method `String.prototype.trim`. -/
def jsTrim (s : String) : String :=
  ⟨trimEndChars (trimStartChars s.data)⟩

/-- Does `pat` occur in `cs` starting at some position (character lists)? -/
def includesChars (pat : List Char) : List Char → Bool
  | [] => pat.isPrefixOf []
  | c :: cs => pat.isPrefixOf (c :: cs) || includesChars pat cs

/-- The method `String.prototype.includes`. -/
def jsIncludes (s pat : String) : Bool :=
  includesChars pat.data s.data

/-- The method `String.prototype.endsWith`. -/
def jsEndsWith (s pat : String) : Bool :=
  pat.data.reverse.isPrefixOf s.data.reverse

/-- Number of positions of `cs` at which `pat` occurs. -/
def countOccurrences (pat : List Char) : List Char → Nat
  | [] => if pat.isPrefixOf [] then 1 else 0
  | c :: cs => (if pat.isPrefixOf (c :: cs) then 1 else 0) + countOccurrences pat cs

/-- A string is white-space only when every character is trimmed by `trim`
(the empty string included). -/
def isBlank (s : String) : Bool :=
  s.data.all isJSWhiteSpace

/-- `API_BASE_URL = import.meta.env.VITE_API_URL || "http://localhost:5000"`;
the argument is the build-time environment variable (`none` when undefined). -/
def API_BASE_URL (VITE_API_URL : Option String) : String :=
  match VITE_API_URL with
  | some v => if v = "" then "http://localhost:5000" else v
  | none => "http://localhost:5000"

/-! ## Dashboard.jsx -/

/-- A page summary as returned by `/api/shopify/pages`. -/
structure Page where
  id : String
  title : String
  deriving DecidableEq, Repr

/-- The `useState` cells of `Dashboard` with their initial values. -/
structure DashboardState where
  shop : String := ""
  isConnected : Bool := false
  pages : List Page := []
  selectedPageId : String := ""
  loading : Bool := true
  error : String := ""
  deriving DecidableEq, Repr

/-- Browser `localStorage`: key/value pairs, at most one per key. -/
abbrev Storage := List (String × String)

/-- The call `localStorage.getItem(key)`. -/
def Storage.getItem (st : Storage) (key : String) : Option String :=
  (st.find? (fun kv => kv.1 == key)).map Prod.snd

/-- The call `localStorage.removeItem(key)`. -/
def Storage.removeItem (st : Storage) (key : String) : Storage :=
  st.filter (fun kv => !(kv.1 == key))

/-- The call `localStorage.setItem(key, value)`. -/
def Storage.setItem (st : Storage) (key value : String) : Storage :=
  Storage.removeItem st key ++ [(key, value)]

/-- Everything a `Dashboard` handler does, in the order the source does it. -/
inductive DashEffect where
  | setShop (v : String)
  | setIsConnected (b : Bool)
  | setPages (ps : List Page)
  | setSelectedPageId (v : String)
  | setLoading (b : Bool)
  | setError (v : String)
  | storageSetItem (key value : String)
  | storageRemoveItem (key : String)
  | httpGet (url : String) (shopHeader : Option String)
  | navigate (path : String)
  | locationAssign (url : String)
  deriving DecidableEq, Repr

/-- The dashboard together with the browser storage it persists to. -/
structure DashWorld where
  state : DashboardState := {}
  storage : Storage := []
  deriving DecidableEq, Repr

/-- Effect of one setter or storage call on the dashboard; requests and
navigations leave the component state alone. -/
def DashWorld.applyEffect (w : DashWorld) : DashEffect → DashWorld
  | .setShop v => { w with state := { w.state with shop := v } }
  | .setIsConnected b => { w with state := { w.state with isConnected := b } }
  | .setPages ps => { w with state := { w.state with pages := ps } }
  | .setSelectedPageId v => { w with state := { w.state with selectedPageId := v } }
  | .setLoading b => { w with state := { w.state with loading := b } }
  | .setError v => { w with state := { w.state with error := v } }
  | .storageSetItem k v => { w with storage := Storage.setItem w.storage k v }
  | .storageRemoveItem k => { w with storage := Storage.removeItem w.storage k }
  | .httpGet _ _ => w
  | .navigate _ => w
  | .locationAssign _ => w

/-- Run a handler's effects in order. -/
def DashWorld.run (w : DashWorld) (effs : List DashEffect) : DashWorld :=
  effs.foldl DashWorld.applyEffect w

/-- The synchronous part of `fetchPages(shopDomain)`: the request is issued. -/
def fetchPagesRequest (env : Option String) (shopDomain : String) : List DashEffect :=
  [.httpGet (API_BASE_URL env ++ "/api/shopify/pages") (some shopDomain)]

/-- The part of `fetchPages` after the `await`: `resp` is `response.data`,
or `none` when the request failed. -/
def fetchPagesSettle (resp : Option (List Page)) : List DashEffect :=
  match resp with
  | some data => [.setPages data, .setLoading false]
  | none => [.setError "Failed to fetch pages", .setLoading false]

/-- The handler `fetchPages(shopDomain)` (Dashboard.jsx, lines 64-80). -/
def fetchPages (env : Option String) (shopDomain : String)
    (resp : Option (List Page)) : List DashEffect :=
  fetchPagesRequest env shopDomain ++ fetchPagesSettle resp

/-- The handler `checkConnectionStatus(shopDomain)` (Dashboard.jsx, lines 45-62);
`status` is `response.data.connected`, or `none` when the request failed. -/
def checkConnectionStatus (env : Option String) (shopDomain : String)
    (status : Option Bool) (pagesResp : Option (List Page)) : List DashEffect :=
  .httpGet (API_BASE_URL env ++ "/connection/status?shop=" ++ shopDomain) none ::
  match status with
  | some connected =>
    .setIsConnected connected ::
      (if connected then fetchPages env shopDomain pagesResp else [.setLoading false])
  | none => [.setError "Failed to check connection status", .setLoading false]

/-- The `else` branch of the `useEffect` handler (Dashboard.jsx, lines 35-41):
restore the shop saved in `localStorage`, if any. -/
def restoreSavedShop (env : Option String) (storage : Storage)
    (status : Option Bool) (pagesResp : Option (List Page)) : List DashEffect :=
  match Storage.getItem storage "shopify_shop" with
  | some savedShop =>
    if savedShop = "" then [.setLoading false]
    else .setShop savedShop :: checkConnectionStatus env savedShop status pagesResp
  | none => [.setLoading false]

/-- The `useEffect` redirect/restore handler (Dashboard.jsx, lines 18-43).
`shopParam` and `connectedParam` are `params.get("shop")` and
`params.get("connected")`; `storage` is the storage the effect reads. -/
def startupEffect (env : Option String) (storage : Storage)
    (shopParam connectedParam : Option String)
    (status : Option Bool) (pagesResp : Option (List Page)) : List DashEffect :=
  let connected := connectedParam == some "true"
  match shopParam with
  | some sp =>
    if sp = "" then restoreSavedShop env storage status pagesResp
    else
      [.setShop sp, .storageSetItem "shopify_shop" sp] ++
        (if connected then
          [.setIsConnected true] ++ fetchPagesRequest env sp ++ [.navigate "/dashboard"] ++
            fetchPagesSettle pagesResp
        else checkConnectionStatus env sp status pagesResp)
  | none => restoreSavedShop env storage status pagesResp

/-- The handler `connectToShopify` (Dashboard.jsx, lines 82-93); `s` holds the
values captured by the closure. -/
def connectToShopify (env : Option String) (s : DashboardState) : List DashEffect :=
  if s.shop = "" then [.setError "Please enter a shop domain"]
  else
    let shopDomain :=
      if jsIncludes s.shop ".myshopify.com" then s.shop else s.shop ++ ".myshopify.com"
    [.locationAssign (API_BASE_URL env ++ "/auth/shopify?shop=" ++ shopDomain)]

/-- The handler `handlePageSelect` (Dashboard.jsx, lines 95-97). -/
def handlePageSelect (value : String) : List DashEffect :=
  [.setSelectedPageId value]

/-- The `onClick` of the "Disconnect Store" button (Dashboard.jsx, lines 154-160). -/
def disconnect : List DashEffect :=
  [.storageRemoveItem "shopify_shop", .setIsConnected false, .setShop "",
   .setPages [], .setSelectedPageId ""]

/-- The `onChange` of the shop input (Dashboard.jsx, line 136). -/
def handleShopInput (value : String) : List DashEffect :=
  [.setShop value]

/-- The URLs a handler navigated the window to. -/
def navigations : List DashEffect → List String
  | [] => []
  | .locationAssign url :: rest => url :: navigations rest
  | _ :: rest => navigations rest

/-- The error messages a handler set, in order. -/
def errorsSet : List DashEffect → List String
  | [] => []
  | .setError v :: rest => v :: errorsSet rest
  | _ :: rest => errorsSet rest

/-- How many times a handler called `setLoading(b)`. -/
def countSetLoading (b : Bool) (effs : List DashEffect) : Nat :=
  effs.count (.setLoading b)

/-! ## ShopifyContentManager.jsx -/

/-- The banner `{ text, type }` of the content editor. -/
structure Message where
  text : String := ""
  type : String := ""
  deriving DecidableEq, Repr

/-- The `useState` cells of `ShopifyContentManager` with their initial values. -/
structure EditorState where
  loading : Bool := true
  pageContent : String := ""
  pageTitle : String := ""
  selectedContent : String := ""
  aiSuggestion : String := ""
  enhancementType : String := "improve"
  processing : Bool := false
  message : Message := {}
  deriving DecidableEq, Repr

/-- Everything a `ShopifyContentManager` handler does, in source order. A request
carries its URL, its JSON body as field/value pairs, and its `shop` header. -/
inductive EditorEffect where
  | setLoading (b : Bool)
  | setPageContent (v : String)
  | setPageTitle (v : String)
  | setSelectedContent (v : String)
  | setAiSuggestion (v : String)
  | setEnhancementType (v : String)
  | setProcessing (b : Bool)
  | setMessage (m : Message)
  | httpGet (url : String) (shop : String)
  | httpPost (url : String) (body : List (String × String)) (shop : String)
  | httpPut (url : String) (body : List (String × String)) (shop : String)
  deriving DecidableEq, Repr

/-- Effect of one setter call on the editor state; requests leave it alone. -/
def EditorState.applyEffect (s : EditorState) : EditorEffect → EditorState
  | .setLoading b => { s with loading := b }
  | .setPageContent v => { s with pageContent := v }
  | .setPageTitle v => { s with pageTitle := v }
  | .setSelectedContent v => { s with selectedContent := v }
  | .setAiSuggestion v => { s with aiSuggestion := v }
  | .setEnhancementType v => { s with enhancementType := v }
  | .setProcessing b => { s with processing := b }
  | .setMessage m => { s with message := m }
  | .httpGet _ _ => s
  | .httpPost _ _ _ => s
  | .httpPut _ _ _ => s

/-- Run a handler's effects in order. -/
def EditorState.run (s : EditorState) (effs : List EditorEffect) : EditorState :=
  effs.foldl EditorState.applyEffect s

/-- Is the effect an HTTP request? -/
def EditorEffect.isRequest : EditorEffect → Bool
  | .httpGet _ _ => true
  | .httpPost _ _ _ => true
  | .httpPut _ _ _ => true
  | _ => false

/-- The HTTP requests a handler sent, in order. -/
def requestsSent (effs : List EditorEffect) : List EditorEffect :=
  effs.filter EditorEffect.isRequest

/-- The callback `fetchPageContent` (ShopifyContentManager.jsx, lines 17-40) for the
props `shop` and `pageId`; `resp` is `(response.data.title, response.data.content)`,
or `none` when the request failed. -/
def fetchPageContent (env : Option String) (shop pageId : String)
    (resp : Option (String × String)) : List EditorEffect :=
  [.setLoading true,
   .httpGet (API_BASE_URL env ++ "/api/content/content/" ++ pageId) shop] ++
  match resp with
  | some (title, content) => [.setPageTitle title, .setPageContent content, .setLoading false]
  | none =>
    [.setMessage ⟨"Failed to load page content. Please try again.", "error"⟩,
     .setLoading false]

/-- The `useEffect` of the editor (ShopifyContentManager.jsx, lines 42-44). -/
def editorMountEffect (env : Option String) (shop pageId : String)
    (resp : Option (String × String)) : List EditorEffect :=
  if shop = "" ∨ pageId = "" then [] else fetchPageContent env shop pageId resp

/-- The handler `handleContentSelection` (ShopifyContentManager.jsx, lines 46-60);
`raw` is `window.getSelection().toString()`. -/
def handleContentSelection (raw : String) : List EditorEffect :=
  let selectedText := jsTrim raw
  if selectedText = "" then
    [.setMessage ⟨"Please select some content to enhance", "warning"⟩]
  else
    [.setSelectedContent selectedText, .setMessage ⟨"", ""⟩]

/-- The handler `requestAiSuggestion` (ShopifyContentManager.jsx, lines 62-97); `s`
holds the values captured by the closure, `resp` is `response.data.suggestion`, or
`none` when the request failed. -/
def requestAiSuggestion (env : Option String) (shop : String) (s : EditorState)
    (resp : Option String) : List EditorEffect :=
  if s.selectedContent = "" then
    [.setMessage ⟨"Please select content first", "warning"⟩]
  else
    [.setProcessing true,
     .httpPost (API_BASE_URL env ++ "/api/content/suggest")
       [("selectedContent", s.selectedContent), ("context", s.pageTitle),
        ("enhancement", s.enhancementType)] shop] ++
    match resp with
    | some suggestion => [.setAiSuggestion suggestion, .setProcessing false]
    | none =>
      [.setMessage ⟨"Failed to get AI suggestions. Please try again.", "error"⟩,
       .setProcessing false]

/-- The handler `applyContentChange` (ShopifyContentManager.jsx, lines 99-141); `s`
holds the values captured by the closure, `putResp` tells whether the update request
succeeded, `fetchResp` is the outcome of the re-fetch that follows a success. -/
def applyContentChange (env : Option String) (shop pageId : String) (s : EditorState)
    (putResp : Option Unit) (fetchResp : Option (String × String)) : List EditorEffect :=
  if s.selectedContent = "" ∨ s.aiSuggestion = "" then
    [.setMessage ⟨"Please select content and generate AI suggestions first", "warning"⟩]
  else
    [.setProcessing true,
     .httpPut (API_BASE_URL env ++ "/api/content/update/" ++ pageId)
       [("originalContent", s.selectedContent), ("newContent", s.aiSuggestion),
        ("fullPageContent", s.pageContent)] shop] ++
    match putResp with
    | some _ =>
      fetchPageContent env shop pageId fetchResp ++
      [.setSelectedContent "", .setAiSuggestion "",
       .setMessage ⟨"Content updated successfully!", "success"⟩, .setProcessing false]
    | none =>
      [.setMessage ⟨"Failed to update content. Please try again.", "error"⟩,
       .setProcessing false]

/-! ## Dashboard and editor together -/

/-- The dashboard and the `ShopifyContentManager` instance it has mounted, if any. -/
structure AppState where
  dash : DashWorld := {}
  editor : Option EditorState := none
  deriving DecidableEq, Repr

/-- The render of `Dashboard` (lines 99-193) mounts `ShopifyContentManager` exactly
when it is past the loading screen, connected, and a page is selected. -/
def editorMounted (d : DashboardState) : Bool :=
  !d.loading && d.isConnected && !(d.selectedPageId == "")

/-- The user picks `value` in the page `<select>`: `handlePageSelect` runs and
`Dashboard` renders again. The editor element has no `key` and stays at the same
place in the tree, so React keeps the mounted instance and its state and only passes
the new `pageId` prop, which re-runs the editor's `useEffect` when it changed; when
the render no longer contains the editor the instance is dropped, and a later mount
starts from the initial state. `resp` is the outcome of the content fetch. -/
def selectPage (env : Option String) (app : AppState) (value : String)
    (resp : Option (String × String)) : AppState :=
  let dash := app.dash.run (handlePageSelect value)
  let d := dash.state
  let editor :=
    if editorMounted d then
      match app.editor with
      | some e =>
        if value = app.dash.state.selectedPageId then some e
        else some (e.run (editorMountEffect env d.shop value resp))
      | none => some (({} : EditorState).run (editorMountEffect env d.shop value resp))
    else none
  { dash := dash, editor := editor }

/-! ## Reachable dashboard states

The handlers above are whole effect traces. To follow the dashboard over time the
asynchronous handlers are cut at their `await`: what runs up to the `await` is one
step, the continuation is another step that runs when the request settles, and
clicks, typing and location changes may land in between. -/

/-- An awaited request of `Dashboard` whose continuation has not run yet:
`checkConnectionStatus(shopDomain)` or `fetchPages` stopped at its `await`. -/
inductive Pending where
  | status (shopDomain : String)
  | pages
  deriving DecidableEq, Repr

/-- Is the awaited request a connection status check? -/
def Pending.isStatus : Pending → Bool
  | .status _ => true
  | .pages => false

/-- What a handler does up to its next `await` (or its end), and the requests whose
answers it then waits for. -/
structure Phase where
  effects : List DashEffect
  awaits : List Pending
  deriving DecidableEq, Repr

/-- The part of `checkConnectionStatus(shopDomain)` before the `await`
(Dashboard.jsx, lines 47-49). -/
def checkConnectionStatusRequest (env : Option String) (shopDomain : String) :
    List DashEffect :=
  [.httpGet (API_BASE_URL env ++ "/connection/status?shop=" ++ shopDomain) none]

/-- The part of `checkConnectionStatus(shopDomain)` after the `await`
(Dashboard.jsx, lines 50-61), up to the `await` inside the `fetchPages` it calls. -/
def checkConnectionStatusSettle (env : Option String) (shopDomain : String)
    (status : Option Bool) : Phase :=
  match status with
  | some connected =>
    if connected then
      ⟨.setIsConnected connected :: fetchPagesRequest env shopDomain, [.pages]⟩
    else ⟨[.setIsConnected connected, .setLoading false], []⟩
  | none => ⟨[.setError "Failed to check connection status", .setLoading false], []⟩

/-- The `else` branch of the `useEffect` handler (Dashboard.jsx, lines 35-41) up to
the `await` of the status check it starts. -/
def restoreSavedShopBegin (env : Option String) (storage : Storage) : Phase :=
  match Storage.getItem storage "shopify_shop" with
  | some savedShop =>
    if savedShop = "" then ⟨[.setLoading false], []⟩
    else ⟨.setShop savedShop :: checkConnectionStatusRequest env savedShop,
          [.status savedShop]⟩
  | none => ⟨[.setLoading false], []⟩

/-- The body of the `useEffect` handler (Dashboard.jsx, lines 18-43) as it runs
synchronously: up to the `await` of the request it starts. -/
def startupBegin (env : Option String) (storage : Storage)
    (shopParam connectedParam : Option String) : Phase :=
  let connected := connectedParam == some "true"
  match shopParam with
  | some sp =>
    if sp = "" then restoreSavedShopBegin env storage
    else if connected then
      ⟨[.setShop sp, .storageSetItem "shopify_shop" sp, .setIsConnected true] ++
        fetchPagesRequest env sp ++ [.navigate "/dashboard"], [.pages]⟩
    else
      ⟨[.setShop sp, .storageSetItem "shopify_shop" sp] ++
        checkConnectionStatusRequest env sp, [.status sp]⟩
  | none => restoreSavedShopBegin env storage

/-- The routes of `App` (App.jsx, lines 8-11): `Dashboard` is the element of the
path `/` only; `/test` shows another component and no other path is routed. -/
def routesToDashboard (path : String) : Bool :=
  path == "/"

/-- Does the effect take the browser away from the dashboard: a router navigation to
a path that does not render `Dashboard`, or an assignment to `window.location.href`,
which loads another document. -/
def DashEffect.leavesDashboard : DashEffect → Bool
  | .navigate path => !routesToDashboard path
  | .locationAssign _ => true
  | _ => false

/-- The browser session: the dashboard's cells and the storage, whether `Dashboard`
is mounted, and the requests of the mounted instance that are still awaited. -/
structure Session where
  world : DashWorld := {}
  mounted : Bool := false
  pending : List Pending := []
  deriving DecidableEq, Repr

/-- One synchronous stretch of a handler applied to the session. When it takes the
browser away from the dashboard the component is unmounted: its cells are gone (a
later mount starts from the initial values), its awaited continuations can set
nothing any more, and only the storage writes remain. -/
def Session.perform (s : Session) (ph : Phase) : Session :=
  if ph.effects.any DashEffect.leavesDashboard then
    { world := { state := {}, storage := (s.world.run ph.effects).storage },
      mounted := false, pending := [] }
  else
    { s with world := s.world.run ph.effects, pending := s.pending ++ ph.awaits }

/-- The browser and user events that drive `Dashboard`. -/
inductive DashEvent where
  | mount (shopParam connectedParam : Option String)
  | locationChange (shopParam connectedParam : Option String)
  | statusSettles (i : Nat) (status : Option Bool)
  | pagesSettles (i : Nat) (resp : Option (List Page))
  | connect
  | disconnectClick
  | typeShop (value : String)
  deriving DecidableEq, Repr

/-- One event applied to the session.

* `mount`: the app is opened or reloaded at `/` with the given query parameters; a
  new `Dashboard` instance starts from the initial cells and its effect runs.
* `locationChange`: the location changes under the mounted dashboard and the effect,
  which depends on `location`, runs again on the current cells.
* `statusSettles i`, `pagesSettles i`: the `i`-th awaited request settles and the
  continuation of its handler runs.
* `connect`, `typeShop`: the connect form, rendered past the loading screen while
  not connected; `disconnectClick`: the button rendered while connected. -/
def Session.step (env : Option String) (s : Session) : DashEvent → Session
  | .mount sp cp =>
    Session.perform
      { world := { state := {}, storage := s.world.storage }, mounted := true, pending := [] }
      (startupBegin env s.world.storage sp cp)
  | .locationChange sp cp =>
    if s.mounted then s.perform (startupBegin env s.world.storage sp cp) else s
  | .statusSettles i status =>
    if s.mounted then
      match s.pending.get? i with
      | some (.status shopDomain) =>
        Session.perform { s with pending := s.pending.eraseIdx i }
          (checkConnectionStatusSettle env shopDomain status)
      | _ => s
    else s
  | .pagesSettles i resp =>
    if s.mounted then
      match s.pending.get? i with
      | some .pages =>
        Session.perform { s with pending := s.pending.eraseIdx i } ⟨fetchPagesSettle resp, []⟩
      | _ => s
    else s
  | .connect =>
    if s.mounted && !s.world.state.loading && !s.world.state.isConnected then
      s.perform ⟨connectToShopify env s.world.state, []⟩
    else s
  | .disconnectClick =>
    if s.mounted && !s.world.state.loading && s.world.state.isConnected then
      s.perform ⟨disconnect, []⟩
    else s
  | .typeShop v =>
    if s.mounted && !s.world.state.loading && !s.world.state.isConnected then
      s.perform ⟨handleShopInput v, []⟩
    else s

/-- The session before the app is opened: nothing mounted, some persisted storage. -/
def Session.start (storage : Storage) : Session :=
  { world := { state := {}, storage := storage }, mounted := false, pending := [] }

/-- The session after a sequence of events. -/
def Session.after (env : Option String) (storage : Storage)
    (events : List DashEvent) : Session :=
  events.foldl (Session.step env) (Session.start storage)

/-- Does the event change the shop cell while a connection status check is still
awaited: a Disconnect click, typing, or another run of the effect. -/
def Session.interrupts (s : Session) : DashEvent → Bool
  | .locationChange _ _ => s.pending.any Pending.isStatus
  | .disconnectClick => s.pending.any Pending.isStatus
  | .typeShop _ => s.pending.any Pending.isStatus
  | _ => false

/-- No event of the sequence lands during an awaited connection status check. -/
def Session.uninterrupted (env : Option String) (s : Session) : List DashEvent → Bool
  | [] => true
  | e :: es => !s.interrupts e && Session.uninterrupted env (s.step env e) es

/-- The `shop` query parameter an event brings, if any. -/
def DashEvent.shopParam : DashEvent → Option String
  | .mount sp _ => sp
  | .locationChange sp _ => sp
  | _ => none

/-- The shop identifiers the dashboard received over a run, exactly as received: the
one persisted before the run and the `shop` parameters of its locations. -/
def receivedShops (storage : Storage) (events : List DashEvent) : List String :=
  (Storage.getItem storage "shopify_shop").toList ++ events.filterMap DashEvent.shopParam

/-- The link between the session and the identifiers received so far that every
uninterrupted run keeps: a connected dashboard stores a non-empty received
identifier, an awaited status check is for the stored, non-empty, received
identifier, and the persisted identifier is a received one. -/
def Session.Consistent (s : Session) (received : List String) : Prop :=
  (s.world.state.isConnected = true →
    s.world.state.shop ≠ "" ∧ s.world.state.shop ∈ received) ∧
  (∀ sd, Pending.status sd ∈ s.pending →
    sd ≠ "" ∧ sd ∈ received ∧ s.world.state.shop = sd) ∧
  (∀ v, Storage.getItem s.world.storage "shopify_shop" = some v → v ∈ received)

/-- A normalized store identifier: non-empty and ending in `.myshopify.com`. -/
def isNormalizedShop (s : String) : Bool :=
  !(s == "") && jsEndsWith s ".myshopify.com"

/-! ## ShopifyConnect.jsx (legacy connect form) -/

/-- Effects of the legacy connect form. -/
inductive ConnectEffect where
  | alert (text : String)
  | locationAssign (url : String)
  deriving DecidableEq, Repr

/-- The call `.replace(/https?:\/\//, "")` on characters: remove the leftmost
`http://` or `https://`. -/
def stripProtocolChars : List Char → List Char
  | [] => []
  | c :: cs =>
    if "https://".data.isPrefixOf (c :: cs) then (c :: cs).drop 8
    else if "http://".data.isPrefixOf (c :: cs) then (c :: cs).drop 7
    else c :: stripProtocolChars cs

/-- The call `.replace(/\.myshopify\.com$/, "")` on characters: remove the suffix
at the end of the input. -/
def stripSuffixChars (cs : List Char) : List Char :=
  if ".myshopify.com".data.reverse.isPrefixOf cs.reverse then cs.take (cs.length - 14)
  else cs

/-- The handler `initiateShopifyAuth` (ShopifyConnect.jsx, lines 38-52). -/
def initiateShopifyAuth (shopDomain : String) : List ConnectEffect :=
  if jsTrim shopDomain = "" then [.alert "Please enter a valid Shopify store domain"]
  else
    let normalizedDomain : String :=
      ⟨stripSuffixChars (stripProtocolChars shopDomain.data)⟩ ++ ".myshopify.com"
    [.locationAssign ("http://localhost:5000/auth/shopify?shop=" ++ normalizedDomain)]

/-! ## Lemmas on the string primitives -/

theorem includesChars_cons_false {pat : List Char} {c : Char} {cs : List Char}
    (h : includesChars pat (c :: cs) = false) :
    pat.isPrefixOf (c :: cs) = false ∧ includesChars pat cs = false := by
  simpa [includesChars] using h

/-- The suffix `.myshopify.com` does not overlap itself: no proper non-empty
beginning of it is also its end. -/
theorem suffix_no_border (k : Nat) (h0 : 0 < k) (h14 : k < 14) :
    ".myshopify.com".data.take k ++ ".myshopify.com".data.take (14 - k)
      ≠ ".myshopify.com".data := by
  interval_cases k <;> decide

/-- An occurrence of the suffix that starts inside `t` and ends inside the appended
suffix would be an overlap; it lies inside `t`. -/
theorem suffix_prefix_of_append (t : List Char) (ht : t ≠ [])
    (h : ".myshopify.com".data <+: t ++ ".myshopify.com".data) :
    ".myshopify.com".data <+: t := by
  by_cases hlen : 14 ≤ t.length
  · exact List.prefix_of_prefix_length_le h (List.prefix_append _ _) (by simpa using hlen)
  · exfalso
    have hk : t.length < 14 := by omega
    have hpos : 0 < t.length := List.length_pos.mpr ht
    have htake : (t ++ ".myshopify.com".data).take 14 = ".myshopify.com".data := by
      have := List.prefix_iff_eq_take.mp h
      simpa using this.symm
    rw [List.take_append_eq_append_take, List.take_of_length_le (by omega)] at htake
    have ht' : t = ".myshopify.com".data.take t.length := by
      have := congrArg (List.take t.length) htake
      simpa using this
    rw [ht'] at htake
    simp only [List.length_take] at htake
    have hmin : min t.length (".myshopify.com".data.length) = t.length := by
      simp; omega
    rw [hmin] at htake
    exact suffix_no_border t.length hpos hk htake

/-- Appending the suffix to a text that does not contain it yields a text that
contains it exactly once. -/
theorem countOccurrences_append_suffix (cs : List Char)
    (h : includesChars ".myshopify.com".data cs = false) :
    countOccurrences ".myshopify.com".data (cs ++ ".myshopify.com".data) = 1 := by
  induction cs with
  | nil => decide
  | cons c cs ih =>
    obtain ⟨hp, hrest⟩ := includesChars_cons_false h
    have hno : (".myshopify.com".data).isPrefixOf (c :: (cs ++ ".myshopify.com".data))
        = false := by
      by_contra hc
      have hc' : (".myshopify.com".data).isPrefixOf (c :: cs ++ ".myshopify.com".data)
          = true := by simpa using hc
      rw [List.isPrefixOf_iff_prefix] at hc'
      have := suffix_prefix_of_append (c :: cs) (by simp) hc'
      rw [← List.isPrefixOf_iff_prefix] at this
      rw [this] at hp
      exact Bool.noConfusion hp
    show (if (".myshopify.com".data).isPrefixOf (c :: (cs ++ ".myshopify.com".data))
        then 1 else 0) + countOccurrences ".myshopify.com".data
          (cs ++ ".myshopify.com".data) = 1
    rw [hno, ih hrest]
    rfl

theorem jsIncludes_empty (pat : String) (h : jsIncludes "" pat = true) : pat = "" := by
  have h1 : pat.data.isPrefixOf [] = true := h
  cases pat with
  | mk cs =>
    cases cs with
    | nil => rfl
    | cons c cs => simp [List.isPrefixOf] at h1

theorem dropWhile_eq_nil_iff_all (p : Char → Bool) (l : List Char) :
    l.dropWhile p = [] ↔ l.all p = true := by
  induction l with
  | nil => simp
  | cons a l ih =>
    by_cases ha : p a = true
    · simp [List.dropWhile_cons, ha, ih]
    · simp [List.dropWhile_cons, ha]

/-- The function `jsTrim` returns the empty string exactly on white-space-only input. -/
theorem jsTrim_eq_empty_iff (s : String) : jsTrim s = "" ↔ isBlank s = true := by
  have key : trimEndChars (trimStartChars s.data) = [] ↔ s.data.all isJSWhiteSpace = true := by
    unfold trimEndChars trimStartChars
    rw [List.reverse_eq_nil_iff, dropWhile_eq_nil_iff_all, List.all_reverse]
    constructor
    · intro h
      rw [← dropWhile_eq_nil_iff_all]
      cases hd : List.dropWhile isJSWhiteSpace s.data with
      | nil => rfl
      | cons a l =>
        exfalso
        have hhead := List.head_dropWhile_not isJSWhiteSpace s.data (by simp [hd])
        rw [hd] at h
        simp only [hd, List.head_cons] at hhead
        simp [hhead] at h
    · intro h
      rw [(dropWhile_eq_nil_iff_all _ _).mpr h]
      rfl
  unfold jsTrim isBlank
  rw [← key]
  constructor
  · intro h
    exact congrArg String.data h
  · intro h
    rw [h]

/-! ## Connecting a store (Dashboard.jsx) -/

/-- C1: for a non-empty shop input without the substring `.myshopify.com`,
`connectToShopify` only navigates, to the OAuth-initiation URL whose shop domain is
the input followed by `.myshopify.com`, and that domain contains the suffix exactly
once; for an input that already contains `.myshopify.com` the shop domain of the URL
is the input unchanged. -/
theorem connectToShopify_appends_suffix_once (env : Option String) (s : DashboardState) :
    (s.shop ≠ "" → jsIncludes s.shop ".myshopify.com" = false →
      connectToShopify env s =
        [.locationAssign
          (API_BASE_URL env ++ "/auth/shopify?shop=" ++ (s.shop ++ ".myshopify.com"))] ∧
      countOccurrences ".myshopify.com".data (s.shop ++ ".myshopify.com").data = 1) ∧
    (jsIncludes s.shop ".myshopify.com" = true →
      connectToShopify env s =
        [.locationAssign (API_BASE_URL env ++ "/auth/shopify?shop=" ++ s.shop)]) := by
  constructor
  · intro hne hinc
    refine ⟨?_, ?_⟩
    · simp [connectToShopify, hne, hinc]
    · rw [String.data_append]
      exact countOccurrences_append_suffix s.shop.data hinc
  · intro hinc
    have hne : s.shop ≠ "" := by
      intro h
      rw [h] at hinc
      exact absurd (jsIncludes_empty _ hinc) (by decide)
    simp [connectToShopify, hne, hinc]

/-- Witness for C1: `mystore` is sent as `mystore.myshopify.com`, and so is
`mystore.myshopify.com`. -/
theorem connectToShopify_appends_suffix_once_witness :
    connectToShopify none { shop := "mystore" } =
      [.locationAssign "http://localhost:5000/auth/shopify?shop=mystore.myshopify.com"] ∧
    connectToShopify none { shop := "mystore.myshopify.com" } =
      [.locationAssign "http://localhost:5000/auth/shopify?shop=mystore.myshopify.com"] :=
  ⟨((connectToShopify_appends_suffix_once none { shop := "mystore" }).1
      (by decide) (by decide)).1,
   (connectToShopify_appends_suffix_once none { shop := "mystore.myshopify.com" }).2
      (by decide)⟩

/-- C2 (code defect): on the white-space-only input of three blanks, `connectToShopify`
sets no error and navigates to the OAuth-initiation endpoint with the shop domain
`   .myshopify.com`, because its guard tests `!shop` only; the empty input is
rejected with "Please enter a shop domain", and the sibling form's
`initiateShopifyAuth`, which tests `!shopDomain.trim()`, rejects the same blanks. -/
theorem connectToShopify_blank_input_navigates :
    isBlank "   " = true ∧
    connectToShopify none { shop := "   " } =
      [.locationAssign "http://localhost:5000/auth/shopify?shop=   .myshopify.com"] ∧
    errorsSet (connectToShopify none { shop := "   " }) = [] ∧
    connectToShopify none { shop := "" } = [.setError "Please enter a shop domain"] ∧
    initiateShopifyAuth "   " = [.alert "Please enter a valid Shopify store domain"] := by
  decide

/-! ## The content editor (ShopifyContentManager.jsx) -/

/-- C3: when the highlighted text trims to the empty string, `handleContentSelection`
only sets the warning "Please select some content to enhance", so the stored
selection and suggestion stay as they were; otherwise the stored selection becomes
exactly the trimmed text. The empty text and three blanks trim to the empty string,
and `Buy now` trims to itself. -/
theorem handleContentSelection_stores_trimmed (raw : String) (s : EditorState) :
    (jsTrim raw = "" →
      handleContentSelection raw =
        [.setMessage ⟨"Please select some content to enhance", "warning"⟩] ∧
      (s.run (handleContentSelection raw)).message =
        ⟨"Please select some content to enhance", "warning"⟩ ∧
      (s.run (handleContentSelection raw)).selectedContent = s.selectedContent ∧
      (s.run (handleContentSelection raw)).aiSuggestion = s.aiSuggestion) ∧
    (jsTrim raw ≠ "" →
      (s.run (handleContentSelection raw)).selectedContent = jsTrim raw) ∧
    jsTrim "" = "" ∧ jsTrim "   " = "" ∧ jsTrim "Buy now" = "Buy now" := by
  refine ⟨?_, ?_, by decide, by decide, by decide⟩
  · intro h
    simp [handleContentSelection, h, EditorState.run, EditorState.applyEffect]
  · intro h
    simp [handleContentSelection, h, EditorState.run, EditorState.applyEffect]

/-- Witness for C3: three blanks leave the selection `old headline` in place with a
warning; `Buy now` surrounded by blanks is stored as `Buy now`. -/
theorem handleContentSelection_stores_trimmed_witness :
    (({ selectedContent := "old headline" } : EditorState).run
      (handleContentSelection "   ")).selectedContent = "old headline" ∧
    (({ selectedContent := "old headline" } : EditorState).run
      (handleContentSelection "  Buy now ")).selectedContent = "Buy now" :=
  ⟨((handleContentSelection_stores_trimmed "   " { selectedContent := "old headline" }).1
      (by decide)).2.2.1,
   (handleContentSelection_stores_trimmed "  Buy now "
      { selectedContent := "old headline" }).2.1 (by decide)⟩

/-- C4: whatever the enhancement mode, `requestAiSuggestion` called with an empty
selection only sets the warning "Please select content first": it sends no request
and leaves selection, suggestion and the processing flag as they were. -/
theorem requestAiSuggestion_empty_selection (env : Option String) (shop mode : String)
    (s : EditorState) (resp : Option String) (h : s.selectedContent = "") :
    requestAiSuggestion env shop { s with enhancementType := mode } resp =
      [.setMessage ⟨"Please select content first", "warning"⟩] ∧
    requestsSent (requestAiSuggestion env shop { s with enhancementType := mode } resp) = [] ∧
    (({ s with enhancementType := mode } : EditorState).run
      (requestAiSuggestion env shop { s with enhancementType := mode } resp)) =
      { s with enhancementType := mode,
               message := ⟨"Please select content first", "warning"⟩ } := by
  simp [requestAiSuggestion, h, EditorState.run, EditorState.applyEffect, requestsSent,
    EditorEffect.isRequest]

/-- Witness for C4: the mode `seo` on a freshly loaded editor. -/
theorem requestAiSuggestion_empty_selection_witness :
    requestsSent (requestAiSuggestion none "mystore.myshopify.com"
      { ({ loading := false } : EditorState) with enhancementType := "seo" }
      (some "New SEO Headline")) = [] :=
  (requestAiSuggestion_empty_selection none "mystore.myshopify.com" "seo"
    { loading := false } (some "New SEO Headline") rfl).2.1

/-- C5: from a state with non-empty selection and suggestion, when the update request
succeeds `applyContentChange` sends the update for the page and then runs
`fetchPageContent` for the same page; afterwards selection and suggestion are empty,
processing is false and the message is "Content updated successfully!"; the only
requests are the update and the re-fetch of the same page id, and the displayed
title and content are the ones the re-fetch returned. -/
theorem applyContentChange_success (env : Option String) (shop pageId : String)
    (s : EditorState) (fetchResp : Option (String × String))
    (hsel : s.selectedContent ≠ "") (hsug : s.aiSuggestion ≠ "") :
    applyContentChange env shop pageId s (some ()) fetchResp =
      [.setProcessing true,
       .httpPut (API_BASE_URL env ++ "/api/content/update/" ++ pageId)
         [("originalContent", s.selectedContent), ("newContent", s.aiSuggestion),
          ("fullPageContent", s.pageContent)] shop] ++
      fetchPageContent env shop pageId fetchResp ++
      [.setSelectedContent "", .setAiSuggestion "",
       .setMessage ⟨"Content updated successfully!", "success"⟩, .setProcessing false] ∧
    requestsSent (applyContentChange env shop pageId s (some ()) fetchResp) =
      [.httpPut (API_BASE_URL env ++ "/api/content/update/" ++ pageId)
         [("originalContent", s.selectedContent), ("newContent", s.aiSuggestion),
          ("fullPageContent", s.pageContent)] shop,
       .httpGet (API_BASE_URL env ++ "/api/content/content/" ++ pageId) shop] ∧
    (s.run (applyContentChange env shop pageId s (some ()) fetchResp)).selectedContent = "" ∧
    (s.run (applyContentChange env shop pageId s (some ()) fetchResp)).aiSuggestion = "" ∧
    (s.run (applyContentChange env shop pageId s (some ()) fetchResp)).processing = false ∧
    (s.run (applyContentChange env shop pageId s (some ()) fetchResp)).message =
      ⟨"Content updated successfully!", "success"⟩ ∧
    (s.run (applyContentChange env shop pageId s (some ()) fetchResp)).loading = false ∧
    (∀ title content, fetchResp = some (title, content) →
      (s.run (applyContentChange env shop pageId s (some ()) fetchResp)).pageTitle = title ∧
      (s.run (applyContentChange env shop pageId s (some ()) fetchResp)).pageContent
        = content) ∧
    (fetchResp = none →
      (s.run (applyContentChange env shop pageId s (some ()) fetchResp)).pageContent
        = s.pageContent) := by
  cases fetchResp with
  | none =>
    simp [applyContentChange, fetchPageContent, hsel, hsug, EditorState.run,
      EditorState.applyEffect, requestsSent, EditorEffect.isRequest]
  | some tc =>
    obtain ⟨t, c⟩ := tc
    simp [applyContentChange, fetchPageContent, hsel, hsug, EditorState.run,
      EditorState.applyEffect, requestsSent, EditorEffect.isRequest]

/-- Witness for C5: the headline scenario of the specification on page `42`. -/
theorem applyContentChange_success_witness :
    (({ loading := false, pageTitle := "Home", pageContent := "<h1>old headline</h1>",
        selectedContent := "old headline", aiSuggestion := "New SEO Headline",
        enhancementType := "seo" } : EditorState).run
      (applyContentChange none "mystore.myshopify.com" "42"
        { loading := false, pageTitle := "Home", pageContent := "<h1>old headline</h1>",
          selectedContent := "old headline", aiSuggestion := "New SEO Headline",
          enhancementType := "seo" }
        (some ()) (some ("Home", "<h1>New SEO Headline</h1>")))).selectedContent = "" :=
  (applyContentChange_success none "mystore.myshopify.com" "42"
    { loading := false, pageTitle := "Home", pageContent := "<h1>old headline</h1>",
      selectedContent := "old headline", aiSuggestion := "New SEO Headline",
      enhancementType := "seo" }
    (some ("Home", "<h1>New SEO Headline</h1>")) (by decide) (by decide)).2.2.1

/-- C6: when the suggestion request of `requestAiSuggestion` fails, or the update
request of `applyContentChange` fails, the handler has sent exactly that one request,
selection and suggestion are what they were before the call, the message is an error
message, and processing is false. -/
theorem failed_call_keeps_selection_and_suggestion (env : Option String)
    (shop pageId : String) (s : EditorState) (fetchResp : Option (String × String)) :
    (s.selectedContent ≠ "" →
      requestsSent (requestAiSuggestion env shop s none) =
        [.httpPost (API_BASE_URL env ++ "/api/content/suggest")
          [("selectedContent", s.selectedContent), ("context", s.pageTitle),
           ("enhancement", s.enhancementType)] shop] ∧
      (s.run (requestAiSuggestion env shop s none)).selectedContent = s.selectedContent ∧
      (s.run (requestAiSuggestion env shop s none)).aiSuggestion = s.aiSuggestion ∧
      (s.run (requestAiSuggestion env shop s none)).message =
        ⟨"Failed to get AI suggestions. Please try again.", "error"⟩ ∧
      (s.run (requestAiSuggestion env shop s none)).processing = false) ∧
    (s.selectedContent ≠ "" → s.aiSuggestion ≠ "" →
      requestsSent (applyContentChange env shop pageId s none fetchResp) =
        [.httpPut (API_BASE_URL env ++ "/api/content/update/" ++ pageId)
          [("originalContent", s.selectedContent), ("newContent", s.aiSuggestion),
           ("fullPageContent", s.pageContent)] shop] ∧
      (s.run (applyContentChange env shop pageId s none fetchResp)).selectedContent
        = s.selectedContent ∧
      (s.run (applyContentChange env shop pageId s none fetchResp)).aiSuggestion
        = s.aiSuggestion ∧
      (s.run (applyContentChange env shop pageId s none fetchResp)).message =
        ⟨"Failed to update content. Please try again.", "error"⟩ ∧
      (s.run (applyContentChange env shop pageId s none fetchResp)).processing = false) := by
  constructor
  · intro hsel
    simp [requestAiSuggestion, hsel, EditorState.run, EditorState.applyEffect,
      requestsSent, EditorEffect.isRequest]
  · intro hsel hsug
    simp [applyContentChange, hsel, hsug, EditorState.run, EditorState.applyEffect,
      requestsSent, EditorEffect.isRequest]

/-- Witness for C6: both calls fail on the headline scenario and the selection
`old headline` and the suggestion `New SEO Headline` are still stored. -/
theorem failed_call_keeps_selection_and_suggestion_witness :
    (({ loading := false, selectedContent := "old headline",
        aiSuggestion := "New SEO Headline" } : EditorState).run
      (requestAiSuggestion none "mystore.myshopify.com"
        { loading := false, selectedContent := "old headline",
          aiSuggestion := "New SEO Headline" } none)).selectedContent = "old headline" ∧
    (({ loading := false, selectedContent := "old headline",
        aiSuggestion := "New SEO Headline" } : EditorState).run
      (applyContentChange none "mystore.myshopify.com" "42"
        { loading := false, selectedContent := "old headline",
          aiSuggestion := "New SEO Headline" } none none)).aiSuggestion
      = "New SEO Headline" :=
  ⟨((failed_call_keeps_selection_and_suggestion none "mystore.myshopify.com" "42"
      { loading := false, selectedContent := "old headline",
        aiSuggestion := "New SEO Headline" } none).1 (by decide)).2.1,
   ((failed_call_keeps_selection_and_suggestion none "mystore.myshopify.com" "42"
      { loading := false, selectedContent := "old headline",
        aiSuggestion := "New SEO Headline" } none).2 (by decide) (by decide)).2.2.1⟩

/-- C9 as stated fails: the editor holds the suggestion `New SEO Headline`, the
user highlights `Buy now`, and after `handleContentSelection` the suggestion is
still `New SEO Headline`, not empty. -/
theorem handleContentSelection_suggestion_not_cleared :
    ({ loading := false, selectedContent := "old headline",
       aiSuggestion := "New SEO Headline" } : EditorState).aiSuggestion ≠ "" ∧
    jsTrim "Buy now" ≠ "" ∧
    (({ loading := false, selectedContent := "old headline",
        aiSuggestion := "New SEO Headline" } : EditorState).run
      (handleContentSelection "Buy now")).aiSuggestion = "New SEO Headline" ∧
    (({ loading := false, selectedContent := "old headline",
        aiSuggestion := "New SEO Headline" } : EditorState).run
      (handleContentSelection "Buy now")).aiSuggestion ≠ "" := by
  decide

/-- C9 amended: for a highlighted text whose trimmed form is non-empty,
`handleContentSelection` stores the trimmed text as the selection and clears the
message; it calls no other setter, so the suggestion is what it was before. -/
theorem handleContentSelection_clears_message_only (raw : String) (s : EditorState)
    (h : jsTrim raw ≠ "") :
    handleContentSelection raw = [.setSelectedContent (jsTrim raw), .setMessage ⟨"", ""⟩] ∧
    (s.run (handleContentSelection raw)).selectedContent = jsTrim raw ∧
    (s.run (handleContentSelection raw)).message = ⟨"", ""⟩ ∧
    (s.run (handleContentSelection raw)).aiSuggestion = s.aiSuggestion := by
  simp [handleContentSelection, h, EditorState.run, EditorState.applyEffect]

/-- Witness for amended C9: a new selection while a warning is shown. -/
theorem handleContentSelection_clears_message_only_witness :
    (({ loading := false, aiSuggestion := "New SEO Headline",
        message := ⟨"Please select content first", "warning"⟩ } : EditorState).run
      (handleContentSelection "Buy now")).message = ⟨"", ""⟩ :=
  (handleContentSelection_clears_message_only "Buy now"
    { loading := false, aiSuggestion := "New SEO Headline",
      message := ⟨"Please select content first", "warning"⟩ } (by decide)).2.2.1

/-! ## The page catalog (Dashboard.jsx) -/

/-- C7: `fetchPages` sends one request carrying the shop domain; when it succeeds
the catalog is the response, when it fails the catalog is the prior one and the
error is "Failed to fetch pages"; in both outcomes the handler calls
`setLoading(false)` exactly once, never `setLoading(true)`, and loading ends false. -/
theorem fetchPages_replaces_or_keeps_catalog (env : Option String) (w : DashWorld)
    (shopDomain : String) :
    (∀ data : List Page,
      (w.run (fetchPages env shopDomain (some data))).state.pages = data ∧
      (w.run (fetchPages env shopDomain (some data))).state.error = w.state.error ∧
      (w.run (fetchPages env shopDomain (some data))).state.loading = false ∧
      countSetLoading false (fetchPages env shopDomain (some data)) = 1 ∧
      countSetLoading true (fetchPages env shopDomain (some data)) = 0) ∧
    (w.run (fetchPages env shopDomain none)).state.pages = w.state.pages ∧
    (w.state.pages = [] → (w.run (fetchPages env shopDomain none)).state.pages = []) ∧
    (w.run (fetchPages env shopDomain none)).state.error = "Failed to fetch pages" ∧
    (w.run (fetchPages env shopDomain none)).state.loading = false ∧
    countSetLoading false (fetchPages env shopDomain none) = 1 ∧
    countSetLoading true (fetchPages env shopDomain none) = 0 := by
  refine ⟨fun data => ?_, ?_, ?_, ?_, ?_, ?_, ?_⟩ <;>
    simp [fetchPages, fetchPagesRequest, fetchPagesSettle, DashWorld.run,
      DashWorld.applyEffect, countSetLoading]

/-- Witness for C7: the fetch fails on a fresh dashboard and the catalog stays empty. -/
theorem fetchPages_replaces_or_keeps_catalog_witness :
    (({} : DashWorld).run (fetchPages none "mystore.myshopify.com" none)).state.pages = [] :=
  (fetchPages_replaces_or_keeps_catalog none {} "mystore.myshopify.com").2.2.1 rfl

/-! ## Changing the page under a mounted editor -/

/-- C10 as stated fails: the dashboard is connected, page `1` is open and the editor
holds the selection `old headline`; the user picks page `2`, its content is fetched
into the same editor instance, and the selection is still `old headline`. -/
theorem selectPage_selection_survives :
    (selectPage none
      { dash := { state := { shop := "mystore.myshopify.com", isConnected := true,
                             pages := [⟨"1", "Home"⟩, ⟨"2", "About"⟩],
                             selectedPageId := "1", loading := false } },
        editor := some { loading := false, pageTitle := "Home",
                         pageContent := "<h1>old headline</h1>",
                         selectedContent := "old headline" } }
      "2" (some ("About", "<p>About us</p>"))).editor =
      some { loading := false, pageTitle := "About", pageContent := "<p>About us</p>",
             selectedContent := "old headline" } ∧
    ((selectPage none
      { dash := { state := { shop := "mystore.myshopify.com", isConnected := true,
                             pages := [⟨"1", "Home"⟩, ⟨"2", "About"⟩],
                             selectedPageId := "1", loading := false } },
        editor := some { loading := false, pageTitle := "Home",
                         pageContent := "<h1>old headline</h1>",
                         selectedContent := "old headline" } }
      "2" (some ("About", "<p>About us</p>"))).editor.map
        (fun e => e.selectedContent)) ≠ some "" := by
  decide

/-- C10 amended: in a connected dashboard past its loading screen whose mounted
editor holds a selection for page `p`, selecting a different page `q` of the catalog
(a non-empty id) keeps the editor instance, runs its mount effect for `q`, and leaves
selection and suggestion as they were; selecting the empty option unmounts the
editor, and an editor mounted afresh starts with an empty selection. -/
theorem selectPage_keeps_selection (env : Option String) (app : AppState)
    (e : EditorState) (q : String) (resp : Option (String × String))
    (hconn : app.dash.state.isConnected = true) (hload : app.dash.state.loading = false)
    (hed : app.editor = some e) :
    (q ≠ "" → q ≠ app.dash.state.selectedPageId →
      (selectPage env app q resp).dash.state.selectedPageId = q ∧
      (selectPage env app q resp).editor =
        some (e.run (editorMountEffect env app.dash.state.shop q resp)) ∧
      (e.run (editorMountEffect env app.dash.state.shop q resp)).selectedContent
        = e.selectedContent ∧
      (e.run (editorMountEffect env app.dash.state.shop q resp)).aiSuggestion
        = e.aiSuggestion) ∧
    (selectPage env app "" resp).editor = none ∧
    (q ≠ "" →
      ((selectPage env { app with editor := none } q resp).editor.map
        (fun e1 => e1.selectedContent)) = some "") := by
  refine ⟨?_, ?_, ?_⟩
  · intro hq hpq
    have hsel : (e.run (editorMountEffect env app.dash.state.shop q resp)).selectedContent
          = e.selectedContent ∧
        (e.run (editorMountEffect env app.dash.state.shop q resp)).aiSuggestion
          = e.aiSuggestion := by
      unfold editorMountEffect fetchPageContent
      by_cases hg : app.dash.state.shop = "" ∨ q = ""
      · simp [hg, EditorState.run]
      · rcases resp with _ | ⟨t, c⟩ <;>
          simp [hg, EditorState.run, EditorState.applyEffect]
    refine ⟨?_, ?_, hsel.1, hsel.2⟩
    · simp [selectPage, handlePageSelect, DashWorld.run, DashWorld.applyEffect]
    · simp [selectPage, handlePageSelect, DashWorld.run, DashWorld.applyEffect,
        editorMounted, hconn, hload, hed, hq, hpq]
  · simp [selectPage, handlePageSelect, DashWorld.run, DashWorld.applyEffect,
      editorMounted]
  · intro hq
    by_cases hs : app.dash.state.shop = ""
    · simp [selectPage, handlePageSelect, DashWorld.run, DashWorld.applyEffect,
        editorMounted, hconn, hload, hq, hs, EditorState.run, editorMountEffect,
        fetchPageContent]
    · rcases resp with _ | ⟨t, c⟩ <;>
        simp [selectPage, handlePageSelect, DashWorld.run, DashWorld.applyEffect,
          editorMounted, hconn, hload, hq, hs, EditorState.run, EditorState.applyEffect,
          editorMountEffect, fetchPageContent]

/-- Witness for amended C10: page `2` is picked while page `1` is open with the
selection `old headline`, and the selection is kept. -/
theorem selectPage_keeps_selection_witness :
    (({ loading := false, pageTitle := "Home", pageContent := "<h1>old headline</h1>",
        selectedContent := "old headline" } : EditorState).run
      (editorMountEffect none "mystore.myshopify.com" "2"
        (some ("About", "<p>About us</p>")))).selectedContent = "old headline" :=
  ((selectPage_keeps_selection none
    { dash := { state := { shop := "mystore.myshopify.com", isConnected := true,
                           pages := [⟨"1", "Home"⟩, ⟨"2", "About"⟩],
                           selectedPageId := "1", loading := false } },
      editor := some { loading := false, pageTitle := "Home",
                       pageContent := "<h1>old headline</h1>",
                       selectedContent := "old headline" } }
    { loading := false, pageTitle := "Home", pageContent := "<h1>old headline</h1>",
      selectedContent := "old headline" }
    "2" (some ("About", "<p>About us</p>")) rfl rfl rfl).1 (by decide) (by decide)).2.2.1

/-! ## Disconnecting (Dashboard.jsx) -/

theorem removeItem_removeItem (st : Storage) (key : String) :
    Storage.removeItem (Storage.removeItem st key) key = Storage.removeItem st key := by
  unfold Storage.removeItem
  rw [List.filter_filter]
  congr 1
  funext kv
  simp

theorem getItem_removeItem (st : Storage) (key : String) :
    Storage.getItem (Storage.removeItem st key) key = none := by
  unfold Storage.getItem Storage.removeItem
  induction st with
  | nil => rfl
  | cons kv st ih =>
    by_cases h : kv.1 = key
    · simp [List.filter_cons, h]
    · simp [List.filter_cons, List.find?_cons, h]

/-- C11: the disconnect action is idempotent. For every dashboard state and persisted
storage, running it twice gives the same state and storage as running it once; after
it the persisted key `shopify_shop` is absent, connected is false, the shop is empty,
the page catalog is empty and the selected page id is empty; the action sets no error
message and leaves the error and loading cells as they were. -/
theorem disconnect_idempotent (w : DashWorld) :
    (w.run disconnect).run disconnect = w.run disconnect ∧
    Storage.getItem (w.run disconnect).storage "shopify_shop" = none ∧
    (w.run disconnect).state.isConnected = false ∧
    (w.run disconnect).state.shop = "" ∧
    (w.run disconnect).state.pages = [] ∧
    (w.run disconnect).state.selectedPageId = "" ∧
    errorsSet disconnect = [] ∧
    (w.run disconnect).state.error = w.state.error ∧
    (w.run disconnect).state.loading = w.state.loading := by
  have hrun : w.run disconnect =
      { state := { w.state with isConnected := false, shop := "", pages := [],
                                selectedPageId := "" },
        storage := Storage.removeItem w.storage "shopify_shop" } := by
    simp [disconnect, DashWorld.run, DashWorld.applyEffect]
  refine ⟨?_, ?_, ?_, ?_, ?_, ?_, by decide, ?_, ?_⟩
  · rw [hrun]
    simp [disconnect, DashWorld.run, DashWorld.applyEffect, removeItem_removeItem]
  · rw [hrun]
    exact getItem_removeItem w.storage "shopify_shop"
  all_goals rw [hrun]

/-! ## The connection invariant (Dashboard.jsx) -/

/-- Cutting `checkConnectionStatus` at its `await`s loses nothing: the request, the
continuation and, when it started `fetchPages`, that handler's continuation make up
the whole trace of the handler. -/
theorem checkConnectionStatus_eq_phases (env : Option String) (shopDomain : String)
    (status : Option Bool) (pagesResp : Option (List Page)) :
    checkConnectionStatus env shopDomain status pagesResp =
      checkConnectionStatusRequest env shopDomain ++
      (checkConnectionStatusSettle env shopDomain status).effects ++
      (if (checkConnectionStatusSettle env shopDomain status).awaits = [.pages]
        then fetchPagesSettle pagesResp else []) := by
  rcases status with _ | c
  · simp [checkConnectionStatus, checkConnectionStatusRequest, checkConnectionStatusSettle]
  · cases c <;>
      simp [checkConnectionStatus, checkConnectionStatusRequest,
        checkConnectionStatusSettle, fetchPages]

/-- Cutting the `useEffect` handler at its `await`s loses nothing: its synchronous
part followed by the continuations of what it awaits is the whole trace. -/
theorem startupEffect_eq_phases (env : Option String) (storage : Storage)
    (sp cp : Option String) (status : Option Bool) (pagesResp : Option (List Page)) :
    startupEffect env storage sp cp status pagesResp =
      (startupBegin env storage sp cp).effects ++
      (match (startupBegin env storage sp cp).awaits with
        | [.status shopDomain] =>
          (checkConnectionStatusSettle env shopDomain status).effects ++
          (if (checkConnectionStatusSettle env shopDomain status).awaits = [.pages]
            then fetchPagesSettle pagesResp else [])
        | [.pages] => fetchPagesSettle pagesResp
        | _ => []) := by
  have hrestore : restoreSavedShop env storage status pagesResp =
      (restoreSavedShopBegin env storage).effects ++
      (match (restoreSavedShopBegin env storage).awaits with
        | [.status shopDomain] =>
          (checkConnectionStatusSettle env shopDomain status).effects ++
          (if (checkConnectionStatusSettle env shopDomain status).awaits = [.pages]
            then fetchPagesSettle pagesResp else [])
        | [.pages] => fetchPagesSettle pagesResp
        | _ => []) := by
    unfold restoreSavedShop restoreSavedShopBegin
    rcases Storage.getItem storage "shopify_shop" with _ | saved
    · simp
    · by_cases hs : saved = ""
      · simp [hs]
      · simp [hs, checkConnectionStatus_eq_phases, List.append_assoc]
  unfold startupEffect startupBegin
  rcases sp with _ | x
  · exact hrestore
  · by_cases hx : x = ""
    · simpa [hx] using hrestore
    · by_cases hcon : (cp == some "true") = true
      · simp [hx, hcon, List.append_assoc]
      · simp [hx, hcon, checkConnectionStatus_eq_phases, List.append_assoc]

theorem getItem_setItem (st : Storage) (key value : String) :
    Storage.getItem (Storage.setItem st key value) key = some value := by
  have h := getItem_removeItem st key
  unfold Storage.getItem at h ⊢
  unfold Storage.setItem
  rw [List.find?_append]
  cases hf : List.find? (fun kv => kv.1 == key) (Storage.removeItem st key) with
  | none => simp
  | some kv => rw [hf] at h; simp at h

theorem not_mem_status_of_any_false {ps : List Pending} (h : ps.any Pending.isStatus = false)
    (sd : String) : Pending.status sd ∉ ps := by
  intro hm
  have : ps.any Pending.isStatus = true := List.any_eq_true.mpr ⟨_, hm, rfl⟩
  rw [h] at this
  exact Bool.noConfusion this

theorem Session.Consistent.mono {s : Session} {r r1 : List String} (h : s.Consistent r)
    (hsub : ∀ x, x ∈ r → x ∈ r1) : s.Consistent r1 := by
  obtain ⟨ha, hb, hc⟩ := h
  refine ⟨fun hcon => ⟨(ha hcon).1, hsub _ (ha hcon).2⟩, fun sd hsd => ?_,
    fun v hv => hsub _ (hc v hv)⟩
  obtain ⟨h1, h2, h3⟩ := hb sd hsd
  exact ⟨h1, hsub _ h2, h3⟩

theorem restoreSavedShopBegin_consistent (env : Option String) (s : Session)
    (r : List String) (h : s.Consistent r) (hq : s.pending.any Pending.isStatus = false) :
    (s.perform (restoreSavedShopBegin env s.world.storage)).Consistent r := by
  obtain ⟨ha, hb, hc⟩ := h
  unfold restoreSavedShopBegin
  rcases hg : Storage.getItem s.world.storage "shopify_shop" with _ | saved
  · refine ⟨?_, ?_, ?_⟩ <;>
      simpa [Session.perform, DashWorld.run, DashWorld.applyEffect,
        DashEffect.leavesDashboard] using by assumption
  · by_cases hs : saved = ""
    · refine ⟨?_, ?_, ?_⟩ <;>
        simpa [hs, Session.perform, DashWorld.run, DashWorld.applyEffect,
          DashEffect.leavesDashboard] using by assumption
    · have hmem : saved ∈ r := hc saved hg
      refine ⟨?_, ?_, ?_⟩
      · simp [hs, Session.perform, DashWorld.run, DashWorld.applyEffect,
          DashEffect.leavesDashboard, checkConnectionStatusRequest, hmem]
      · intro sd hsd
        simp only [hs, Session.perform, DashWorld.run, DashWorld.applyEffect,
          DashEffect.leavesDashboard, checkConnectionStatusRequest, List.any_cons,
          List.any_nil, Bool.or_false, Bool.false_eq_true, if_false, List.foldl,
          List.mem_append, List.mem_singleton] at hsd ⊢
        rcases hsd with hsd | hsd
        · exact absurd hsd (not_mem_status_of_any_false hq sd)
        · cases hsd
          exact ⟨hs, hmem, rfl⟩
      · simpa [hs, Session.perform, DashWorld.run, DashWorld.applyEffect,
          DashEffect.leavesDashboard, checkConnectionStatusRequest] using hc

theorem startupBegin_consistent (env : Option String) (s : Session) (r : List String)
    (sp cp : Option String) (h : s.Consistent r)
    (hq : s.pending.any Pending.isStatus = false) :
    (s.perform (startupBegin env s.world.storage sp cp)).Consistent (r ++ sp.toList) := by
  have hmono : ∀ x, x ∈ r → x ∈ r ++ sp.toList := fun x hx => List.mem_append_left _ hx
  unfold startupBegin
  rcases sp with _ | x
  · exact (restoreSavedShopBegin_consistent env s r h hq).mono hmono
  · by_cases hx : x = ""
    · simp only [hx, if_true]
      exact (restoreSavedShopBegin_consistent env s r h hq).mono
        (fun y hy => List.mem_append_left _ hy)
    · obtain ⟨ha, hb, hc⟩ := h
      have hxr : x ∈ r ++ (some x).toList := by simp
      by_cases hcon : (cp == some "true") = true
      · refine ⟨?_, ?_, ?_⟩
        · simp [hx, hcon, Session.perform, DashWorld.run, DashWorld.applyEffect,
            DashEffect.leavesDashboard, routesToDashboard, fetchPagesRequest]
        · simp [hx, hcon, Session.perform, DashWorld.run, DashWorld.applyEffect,
            DashEffect.leavesDashboard, routesToDashboard, fetchPagesRequest]
        · intro v hv
          simp only [hx, hcon, Session.perform, DashWorld.run, DashWorld.applyEffect,
            DashEffect.leavesDashboard, routesToDashboard, fetchPagesRequest, if_false,
            if_true, List.foldl, List.any_cons, List.any_nil, List.cons_append,
            List.nil_append, List.any_append] at hv
          simp only [show (("/dashboard" : String) == "/") = false from by decide,
            Bool.not_false, Bool.or_true, Bool.or_false, Bool.false_or, if_true,
            getItem_setItem] at hv
          cases hv
          exact hxr
      · refine ⟨?_, ?_, ?_⟩
        · simp [hx, hcon, Session.perform, DashWorld.run, DashWorld.applyEffect,
            DashEffect.leavesDashboard, checkConnectionStatusRequest]
        · intro sd hsd
          simp only [hx, hcon, Session.perform, DashWorld.run, DashWorld.applyEffect,
            DashEffect.leavesDashboard, checkConnectionStatusRequest, List.any_cons,
            List.any_nil, Bool.or_false, Bool.false_eq_true, if_false, List.foldl,
            List.mem_append, List.mem_singleton, List.cons_append, List.nil_append]
            at hsd ⊢
          rcases hsd with hsd | hsd
          · exact absurd hsd (not_mem_status_of_any_false hq sd)
          · cases hsd
            exact ⟨hx, List.mem_append.mp hxr, rfl⟩
        · intro v hv
          simp only [hx, hcon, Session.perform, DashWorld.run, DashWorld.applyEffect,
            DashEffect.leavesDashboard, checkConnectionStatusRequest, List.any_cons,
            List.any_nil, Bool.or_false, Bool.false_eq_true, if_false, List.foldl,
            List.cons_append, List.nil_append, getItem_setItem] at hv
          cases hv
          exact hxr

theorem Session.Consistent.frame {s s1 : Session} {r : List String} (h : s.Consistent r)
    (hcon : s1.world.state.isConnected = true → s.world.state.isConnected = true)
    (hshop : s1.world.state.shop = s.world.state.shop)
    (hpend : ∀ sd, Pending.status sd ∈ s1.pending → Pending.status sd ∈ s.pending)
    (hstore : s1.world.storage = s.world.storage) : s1.Consistent r := by
  obtain ⟨ha, hb, hc⟩ := h
  refine ⟨fun h1 => ?_, fun sd hsd => ?_, fun v hv => ?_⟩
  · rw [hshop]
    exact ha (hcon h1)
  · rw [hshop]
    exact hb sd (hpend sd hsd)
  · rw [hstore] at hv
    exact hc v hv

theorem mem_pending_of_get? {ps : List Pending} {i : Nat} {p : Pending}
    (h : ps.get? i = some p) : p ∈ ps :=
  List.get?_mem h

theorem step_consistent (env : Option String) (s : Session) (r : List String)
    (e : DashEvent) (h : s.Consistent r) (hq : s.interrupts e = false) :
    (s.step env e).Consistent (r ++ e.shopParam.toList) := by
  have hmono : ∀ x, x ∈ r → x ∈ r ++ e.shopParam.toList :=
    fun x hx => List.mem_append_left _ hx
  cases e with
  | mount sp cp =>
    have h0 : Session.Consistent
        { world := { state := {}, storage := s.world.storage }, mounted := true,
          pending := [] } r :=
      ⟨fun hc => Bool.noConfusion hc, fun sd hsd => absurd hsd (List.not_mem_nil _),
        h.2.2⟩
    exact startupBegin_consistent env _ r sp cp h0 rfl
  | locationChange sp cp =>
    by_cases hm : s.mounted = true
    · simp only [Session.step, hm, if_true]
      exact startupBegin_consistent env s r sp cp h hq
    · simp only [Session.step, hm]
      exact h.mono hmono
  | statusSettles i status =>
    refine Session.Consistent.mono ?_ hmono
    by_cases hm : s.mounted = true
    · simp only [Session.step, hm, if_true]
      rcases hg : s.pending.get? i with _ | p
      · exact h
      · cases p with
        | pages => exact h
        | status sd =>
          obtain ⟨hne, hmem, hshop⟩ := h.2.1 sd (mem_pending_of_get? hg)
          have herase : ∀ sd1, Pending.status sd1 ∈ s.pending.eraseIdx i →
              Pending.status sd1 ∈ s.pending :=
            fun sd1 h1 => List.mem_of_mem_eraseIdx h1
          rcases status with _ | c
          · refine h.frame ?_ ?_ ?_ ?_ <;>
              simp [Session.perform, checkConnectionStatusSettle, DashWorld.run,
                DashWorld.applyEffect, DashEffect.leavesDashboard]
            exact herase
          · cases c
            · refine ⟨?_, ?_, ?_⟩
              · simp [Session.perform, checkConnectionStatusSettle, DashWorld.run,
                  DashWorld.applyEffect, DashEffect.leavesDashboard]
              · intro sd1 h1
                have h2 : Pending.status sd1 ∈ s.pending := by
                  simp only [Session.perform, checkConnectionStatusSettle, DashWorld.run,
                    DashWorld.applyEffect, DashEffect.leavesDashboard, List.any_cons,
                    List.any_nil, Bool.or_false, Bool.false_eq_true, if_false,
                    List.append_nil] at h1
                  exact herase sd1 h1
                simpa [Session.perform, checkConnectionStatusSettle, DashWorld.run,
                  DashWorld.applyEffect, DashEffect.leavesDashboard] using h.2.1 sd1 h2
              · simpa [Session.perform, checkConnectionStatusSettle, DashWorld.run,
                  DashWorld.applyEffect, DashEffect.leavesDashboard] using h.2.2
            · refine ⟨?_, ?_, ?_⟩
              · simp [Session.perform, checkConnectionStatusSettle, DashWorld.run,
                  DashWorld.applyEffect, DashEffect.leavesDashboard, fetchPagesRequest,
                  hshop, hne, hmem]
              · intro sd1 h1
                have h2 : Pending.status sd1 ∈ s.pending := by
                  simp only [Session.perform, checkConnectionStatusSettle, DashWorld.run,
                    DashWorld.applyEffect, DashEffect.leavesDashboard, fetchPagesRequest,
                    List.any_cons, List.any_nil, Bool.or_false, Bool.false_eq_true,
                    if_false, if_true, List.mem_append, List.mem_singleton] at h1
                  rcases h1 with h1 | h1
                  · exact herase sd1 h1
                  · cases h1
                simpa [Session.perform, checkConnectionStatusSettle, DashWorld.run,
                  DashWorld.applyEffect, DashEffect.leavesDashboard, fetchPagesRequest]
                  using h.2.1 sd1 h2
              · simpa [Session.perform, checkConnectionStatusSettle, DashWorld.run,
                  DashWorld.applyEffect, DashEffect.leavesDashboard, fetchPagesRequest]
                  using h.2.2
    · simp only [Session.step, hm]
      exact h
  | pagesSettles i resp =>
    refine Session.Consistent.mono ?_ hmono
    by_cases hm : s.mounted = true
    · simp only [Session.step, hm, if_true]
      rcases hg : s.pending.get? i with _ | p
      · exact h
      · cases p with
        | status sd => exact h
        | pages =>
          have herase : ∀ sd1, Pending.status sd1 ∈ s.pending.eraseIdx i →
              Pending.status sd1 ∈ s.pending :=
            fun sd1 h1 => List.mem_of_mem_eraseIdx h1
          rcases resp with _ | data <;>
          · refine h.frame ?_ ?_ ?_ ?_ <;>
              simp [Session.perform, fetchPagesSettle, DashWorld.run,
                DashWorld.applyEffect, DashEffect.leavesDashboard]
            exact herase
    · simp only [Session.step, hm]
      exact h
  | connect =>
    refine Session.Consistent.mono ?_ hmono
    by_cases hg : (s.mounted && !s.world.state.loading && !s.world.state.isConnected) = true
    · simp only [Session.step, hg, if_true]
      by_cases hs : s.world.state.shop = ""
      · refine h.frame ?_ ?_ ?_ ?_ <;>
          simp [Session.perform, connectToShopify, hs, DashWorld.run,
            DashWorld.applyEffect, DashEffect.leavesDashboard]
      · refine ⟨?_, ?_, ?_⟩
        · simp [Session.perform, connectToShopify, hs, DashWorld.run,
            DashWorld.applyEffect, DashEffect.leavesDashboard]
        · simp [Session.perform, connectToShopify, hs, DashWorld.run,
            DashWorld.applyEffect, DashEffect.leavesDashboard]
        · simpa [Session.perform, connectToShopify, hs, DashWorld.run,
            DashWorld.applyEffect, DashEffect.leavesDashboard] using h.2.2
    · simp only [Session.step, hg]
      exact h
  | disconnectClick =>
    refine Session.Consistent.mono ?_ hmono
    have hq1 : s.pending.any Pending.isStatus = false := hq
    by_cases hg : (s.mounted && !s.world.state.loading && s.world.state.isConnected) = true
    · simp only [Session.step, hg, if_true]
      refine ⟨?_, ?_, ?_⟩
      · simp [Session.perform, disconnect, DashWorld.run, DashWorld.applyEffect,
          DashEffect.leavesDashboard]
      · intro sd hsd
        have h2 : Pending.status sd ∈ s.pending := by
          simpa [Session.perform, disconnect, DashWorld.run, DashWorld.applyEffect,
            DashEffect.leavesDashboard] using hsd
        exact absurd h2 (not_mem_status_of_any_false hq1 sd)
      · intro v hv
        simp [Session.perform, disconnect, DashWorld.run, DashWorld.applyEffect,
          DashEffect.leavesDashboard, getItem_removeItem] at hv
    · simp only [Session.step, hg]
      exact h
  | typeShop v =>
    refine Session.Consistent.mono ?_ hmono
    have hq1 : s.pending.any Pending.isStatus = false := hq
    by_cases hg : (s.mounted && !s.world.state.loading && !s.world.state.isConnected) = true
    · have hc : s.world.state.isConnected = false := by
        simp only [Bool.and_eq_true, Bool.not_eq_true'] at hg
        exact hg.2
      simp only [Session.step, hg, if_true]
      refine ⟨?_, ?_, ?_⟩
      · simp [Session.perform, handleShopInput, DashWorld.run, DashWorld.applyEffect,
          DashEffect.leavesDashboard, hc]
      · intro sd hsd
        have h2 : Pending.status sd ∈ s.pending := by
          simpa [Session.perform, handleShopInput, DashWorld.run, DashWorld.applyEffect,
            DashEffect.leavesDashboard] using hsd
        exact absurd h2 (not_mem_status_of_any_false hq1 sd)
      · simpa [Session.perform, handleShopInput, DashWorld.run, DashWorld.applyEffect,
          DashEffect.leavesDashboard] using h.2.2
    · simp only [Session.step, hg]
      exact h

theorem foldl_step_consistent (env : Option String) (events : List DashEvent) :
    ∀ (s : Session) (r : List String), s.Consistent r →
      s.uninterrupted env events = true →
      (events.foldl (Session.step env) s).Consistent
        (r ++ events.filterMap DashEvent.shopParam) := by
  induction events with
  | nil =>
    intro s r h _
    exact h.mono (fun x hx => List.mem_append_left _ hx)
  | cons e es ih =>
    intro s r h hq
    have hq1 : s.interrupts e = false ∧ Session.uninterrupted env (s.step env e) es = true := by
      simpa [Session.uninterrupted] using hq
    have hstep := step_consistent env s r e h hq1.1
    refine (ih (s.step env e) (r ++ e.shopParam.toList) hstep hq1.2).mono ?_
    intro x hx
    rcases hp : e.shopParam with _ | sp
    · simpa [List.filterMap_cons, hp] using hx
    · simpa [List.filterMap_cons, hp] using hx

/-- C8 as stated fails: the app is opened at `/?shop=foo` with empty storage and the
connection status check answers connected; no other event intervenes. The dashboard
is mounted with the connected flag true and the shop identifier `foo`, stored as it
came, which does not end in `.myshopify.com`. -/
theorem connected_shop_not_normalized :
    Session.uninterrupted none (Session.start [])
      [.mount (some "foo") none, .statusSettles 0 (some true),
       .pagesSettles 0 (some [])] = true ∧
    (Session.after none []
      [.mount (some "foo") none, .statusSettles 0 (some true),
       .pagesSettles 0 (some [])]).mounted = true ∧
    (Session.after none []
      [.mount (some "foo") none, .statusSettles 0 (some true),
       .pagesSettles 0 (some [])]).world.state.isConnected = true ∧
    (Session.after none []
      [.mount (some "foo") none, .statusSettles 0 (some true),
       .pagesSettles 0 (some [])]).world.state.shop = "foo" ∧
    isNormalizedShop (Session.after none []
      [.mount (some "foo") none, .statusSettles 0 (some true),
       .pagesSettles 0 (some [])]).world.state.shop = false := by
  decide

/-- C8 amended: over any persisted storage and any sequence of mounts, location
changes, settled requests, connect clicks, disconnect clicks and typing in which no
disconnect click, typing or further run of the startup handler lands while a
connection status check is awaited, a true connected flag implies that the stored
shop identifier is non-empty and is an identifier the dashboard received, exactly
as received: the one persisted before the run or a `shop` parameter of the run. -/
theorem connected_shop_is_received (env : Option String) (storage : Storage)
    (events : List DashEvent)
    (hq : Session.uninterrupted env (Session.start storage) events = true)
    (hc : (Session.after env storage events).world.state.isConnected = true) :
    (Session.after env storage events).world.state.shop ≠ "" ∧
    (Session.after env storage events).world.state.shop ∈ receivedShops storage events := by
  have h0 : (Session.start storage).Consistent
      (Storage.getItem storage "shopify_shop").toList := by
    refine ⟨fun h => Bool.noConfusion h, fun sd hsd => absurd hsd (List.not_mem_nil _),
      fun v hv => ?_⟩
    have hv1 : Storage.getItem storage "shopify_shop" = some v := hv
    rw [hv1]
    simp
  exact (foldl_step_consistent env events (Session.start storage) _ h0 hq).1 hc

/-- Witness for amended C8: a saved shop is restored, the status check answers
connected, the user disconnects, and the app is opened again on the redirect
parameter `shop=other.myshopify.com`, for which the check answers connected. -/
theorem connected_shop_is_received_witness :
    (Session.after none [("shopify_shop", "mystore.myshopify.com")]
      [.mount none none, .statusSettles 0 (some true),
       .pagesSettles 0 (some [⟨"42", "Home"⟩]), .disconnectClick,
       .mount (some "other.myshopify.com") none,
       .statusSettles 0 (some true)]).world.state.shop ≠ "" ∧
    (Session.after none [("shopify_shop", "mystore.myshopify.com")]
      [.mount none none, .statusSettles 0 (some true),
       .pagesSettles 0 (some [⟨"42", "Home"⟩]), .disconnectClick,
       .mount (some "other.myshopify.com") none,
       .statusSettles 0 (some true)]).world.state.shop ∈
      receivedShops [("shopify_shop", "mystore.myshopify.com")]
        [.mount none none, .statusSettles 0 (some true),
         .pagesSettles 0 (some [⟨"42", "Home"⟩]), .disconnectClick,
         .mount (some "other.myshopify.com") none, .statusSettles 0 (some true)] :=
  connected_shop_is_received none [("shopify_shop", "mystore.myshopify.com")]
    [.mount none none, .statusSettles 0 (some true),
     .pagesSettles 0 (some [⟨"42", "Home"⟩]), .disconnectClick,
     .mount (some "other.myshopify.com") none, .statusSettles 0 (some true)]
    (by decide) (by decide)

/-- An interrupted run can end connected with an empty shop: the effect runs again
under a connected dashboard, the user clicks Disconnect while the status check is
awaited, and the check then answers connected. -/
theorem disconnect_during_status_check :
    Session.uninterrupted none (Session.start [("shopify_shop", "mystore.myshopify.com")])
      [.mount none none, .statusSettles 0 (some true), .pagesSettles 0 (some []),
       .locationChange none none, .disconnectClick, .statusSettles 0 (some true)] = false ∧
    (Session.after none [("shopify_shop", "mystore.myshopify.com")]
      [.mount none none, .statusSettles 0 (some true), .pagesSettles 0 (some []),
       .locationChange none none, .disconnectClick,
       .statusSettles 0 (some true)]).world.state.isConnected = true ∧
    (Session.after none [("shopify_shop", "mystore.myshopify.com")]
      [.mount none none, .statusSettles 0 (some true), .pagesSettles 0 (some []),
       .locationChange none none, .disconnectClick,
       .statusSettles 0 (some true)]).world.state.shop = "" := by
  decide

/-- The redirect with `connected=true` navigates to `/dashboard`, which `App` does
not route: the dashboard is unmounted and only the persisted identifier remains. -/
theorem connected_redirect_unmounts :
    (Session.after none [] [.mount (some "foo") (some "true")]).mounted = false ∧
    (Session.after none [] [.mount (some "foo") (some "true")]).world.storage
      = [("shopify_shop", "foo")] := by
  decide

end ReactURL
